import Mathlib

/-!
# ChatPulse core — shallow embedding and verification

This file embeds the protocol-relevant parts of the ChatPulse WhatsApp client
library in Lean 4 and proves (or refutes) the specification claims about them.

Embedded components and their source files:
* `PacketParser` (src/core/PacketParser.js): `parsePacket`, `validatePacket`,
  `verifySignature`, `parseBinaryPacket`, the handler routing table.
* `PacketBuilder` (core/PacketBuilder.js): `buildMessagePacket`,
  `buildHandshakePacket`, `signPacket`.
* `WebSocketManager` (src/core/WebSocketManager.js): `send`,
  `processMessageQueue`, `handleOpen`, `handleClose`, `scheduleReconnect`.
* `QRManager` (src/core/QRManager.js): QR expiry timer, `refreshQR`,
  `generateQRData`, `validateQRScan`, `processQRScan`.
* `AuthManager` (core/AuthManager.js): `loadSession`, `saveSession`,
  `validateSession`, `isSessionExpired`, `encryptSession`.
* `PollHandler` (handlers/PollHandler.js): `createPoll`, `votePoll`,
  `getPollResults`.
* `WhatsApp` (sdk/WhatsApp.js): constructor state, `connect`, `connectWithQR`,
  and the event handlers subscribed to `PacketParser`.

Modelling conventions:
* JavaScript objects that travel over the wire are represented by the record
  `PacketCore` (plus an optional signature).  A field that the source may leave
  `undefined`/`null` is an `Option`.  JavaScript truthiness is modelled
  explicitly: the empty string and the number `0` are falsy.
* `JSON.stringify`/`JSON.parse` between `PacketBuilder` and `PacketParser` are
  inverse on the modelled packet universe, so a wire frame is represented by
  the packet value itself.
* HMAC-SHA256 signing over the sorted-key JSON serialisation of a packet
  (without its `signature` field) is modelled as the injective constructor
  `Sig.hmac`: two signatures are equal iff they were produced from the same
  canonical packet and key (ideal collision-free MAC).
* Random values (`CryptoUtil.generateMessageId`, `generateClientId`, time from
  `Date.now()`) are passed as explicit arguments; stateful counters are
  threaded through explicit state records.
* Fields of wire objects that no claim reads (e.g. `version`, `browser`,
  `raw`, `isGroup`, `participant`, percentage strings of poll results) are
  outside the modelled universe, as are packets carrying an encrypted `data`
  payload: `decryptPacket` on a packet without a `data` field returns its
  argument unchanged both when no secret key is bound (the guard throws and the
  catch returns `encryptedPacket`) and when one is bound (`aesDecrypt` of a
  missing payload throws, same catch), which is the `decryptPacketModel` below.
-/

namespace ChatPulse

/-- JavaScript truthiness of an optional string field: present and nonempty. -/
def truthyS : Option String → Bool
  | some s => s ≠ ""
  | none => false

/-- JavaScript truthiness of an optional number field: present and nonzero. -/
def truthyN : Option Nat → Bool
  | some n => n ≠ 0
  | none => false

/-- The fields of a wire packet other than `signature`, i.e. exactly what
`JSON.stringify(packetWithoutSignature, sortedKeys)` serialises.  Every field
is optional because JavaScript objects simply omit absent keys. -/
structure PacketCore where
  /-- the `type` field (`none` models a missing type) -/
  ptype : Option String := none
  timestamp : Option Nat := none
  messageId : Option String := none
  /-- the `to` field (`to` is a Lean keyword) -/
  toId : Option String := none
  /-- the `from` field (`from` is a Lean keyword) -/
  fromId : Option String := none
  messageType : Option String := none
  content : Option String := none
  counter : Option Nat := none
  /-- `clientId` field of handshake packets -/
  clientId : Option String := none
  /-- `success` field of `auth_response` packets -/
  success : Option Bool := none
  /-- binary packets: first header byte -/
  packetType : Option Nat := none
  /-- binary packets: second header byte -/
  flags : Option Nat := none
  /-- binary packets: payload bytes -/
  contentBytes : Option (List Nat) := none
  /-- `error` field of `binary_error` packets -/
  errorMsg : Option String := none
  deriving DecidableEq, Repr

/-- A signature value.  `Sig.hmac c k` models
`CryptoUtil.createSignature(JSON.stringify(c, sortedKeys), k)`; equality of
`Sig` values models `CryptoUtil.validateSignature` (an ideal MAC: a signature
matches iff it was produced from the same data and key).  `Sig.raw s` is an
arbitrary attacker-supplied string that is not a signature produced by the
library. -/
inductive Sig where
  | hmac (canon : PacketCore) (key : String)
  | raw (s : String)
  deriving DecidableEq, Repr

/-- A full wire packet: its serialisable fields plus an optional signature. -/
structure Packet where
  core : PacketCore
  signature : Option Sig := none
  deriving DecidableEq, Repr

/-- Session credentials as held by `PacketBuilder` / `PacketParser`
(`this.credentials`); only the fields those classes read are modelled. -/
structure Credentials where
  clientId : Option String := none
  secretKey : Option String := none
  deriving DecidableEq, Repr

/-! ## PacketParser (src/core/PacketParser.js) -/

/-- `PacketParser.validatePacket` (PacketParser.js:178-194): the packet must be
an object with a truthy string `type`, and a truthy `timestamp` unless the type
is `ping`, `pong` or `binary_unknown`. -/
def validatePacketModel (p : Packet) : Bool :=
  match p.core.ptype with
  | none => false
  | some t =>
    t ≠ "" && (truthyN p.core.timestamp || (t = "ping" || t = "pong" || t = "binary_unknown"))

/-- `PacketParser.verifySignature` (PacketParser.js:217-232): false when no
secret key or no signature is present, otherwise compares the signature with
the MAC of the packet stripped of its `signature` field.
(`crypto.timingSafeEqual` throws on length mismatch; the catch also returns
false, so plain equality is the right model.) -/
def verifySignatureModel (creds : Option Credentials) (p : Packet) : Bool :=
  match creds.bind (·.secretKey), p.signature with
  | some key, some s => s = Sig.hmac p.core key
  | _, _ => false

/-- `PacketParser.decryptPacket` (PacketParser.js:199-212) restricted to the
modelled universe, where no packet carries an encrypted `data` payload: with no
secret key the guard throws and the catch returns `encryptedPacket` unchanged;
with a key, `aesDecrypt` of the missing payload throws into the same catch.
Either way the packet is returned unchanged. -/
def decryptPacketModel (_creds : Option Credentials) (p : Packet) : Packet := p

/-- The data portion of `handleMessage`'s `messages.upsert` emission
(PacketParser.js:277-295); `isGroup`/`participant` omitted (scope). -/
structure MessageData where
  messageId : Option String
  fromId : Option String
  toId : Option String
  /-- `packet.messageType || 'conversation'` -/
  messageType : String
  content : Option String
  timestamp : Option Nat
  deriving DecidableEq, Repr

/-- Builds the `messages.upsert` payload from a `message` packet
(PacketParser.js:280-289), with the `||`-fallback for `messageType`. -/
def mkMessageData (c : PacketCore) : MessageData :=
  { messageId := c.messageId
    fromId := c.fromId
    toId := c.toId
    messageType := match c.messageType with
      | some s => if s ≠ "" then s else "conversation"
      | none => "conversation"
    content := c.content
    timestamp := c.timestamp }

/-- Events a `PacketParser` can emit while parsing one packet (one per
handler in `setupDefaultHandlers`, PacketParser.js:26-39, plus the
`error`/`unknown_packet` emissions of `parsePacket`/`routePacket`). -/
inductive PEvent where
  | handshakeResponse
  | authSuccess
  | authFailed
  | messagesUpsert (m : MessageData)
  | presenceUpdate
  | messagesReaction
  | groupsUpdate
  | mediaUploadResponse
  | ping
  | pong
  | errorEvent
  | qrEvent
  | connectionUpdate
  | unknownPacket
  deriving DecidableEq, Repr

/-- `PacketParser.routePacket` (PacketParser.js:237-251) composed with the
default handlers: dispatch on the `type` string; a type with no handler emits
`unknown_packet` (below).  This table is `setupDefaultHandlers`'s
`messageHandlers` map; `handleAuthResponse` branches on the truthiness of
`packet.success`. -/
def defaultHandlerEvents (t : String) (p : Packet) : Option (List PEvent) :=
  if t = "handshake_response" then some [.handshakeResponse]
  else if t = "auth_response" then
    some (if p.core.success = some true then [.authSuccess] else [.authFailed])
  else if t = "message" then some [.messagesUpsert (mkMessageData p.core)]
  else if t = "presence" then some [.presenceUpdate]
  else if t = "reaction" then some [.messagesReaction]
  else if t = "group_update" then some [.groupsUpdate]
  else if t = "media_upload_response" then some [.mediaUploadResponse]
  else if t = "ping" then some [.ping]
  else if t = "pong" then some [.pong]
  else if t = "error" then some [.errorEvent]
  else if t = "qr_update" then some [.qrEvent]
  else if t = "connection_update" then some [.connectionUpdate]
  else none

/-- `PacketParser.routePacket` (PacketParser.js:237-251): look the `type`
string up in the handler map; a type with no handler emits `unknown_packet`. -/
def routePacketModel (p : Packet) : List PEvent :=
  match p.core.ptype with
  | some t => (defaultHandlerEvents t p).getD [.unknownPacket]
  | none => [.unknownPacket]

/-- The possible shapes of the `data` argument of `parsePacket`
(PacketParser.js:44-57):
* `malformedText`: a string on which `JSON.parse` throws;
* `nonObjectText`: a string parsing to a non-object (fails the
  `typeof packet !== 'object'` test in `validatePacket`; represented by a
  packet with no fields so that validation fails the same way);
* `jsonPacket p`: a string parsing to the object `p`;
* `objPacket p`: an already-parsed object;
* `bin bytes`: a `Buffer`;
* `unsupported`: any other runtime type (`throw 'Unsupported packet data
  type'`). -/
inductive InboundData where
  | malformedText
  | nonObjectText
  | jsonPacket (p : Packet)
  | objPacket (p : Packet)
  | bin (bytes : List Nat)
  | unsupported
  deriving DecidableEq, Repr

/-- A `binary_error` pseudo-packet (PacketParser.js:151-156). -/
def binErrorPacket (msg : String) : Packet :=
  { core := { ptype := some "binary_error", errorMsg := some msg } }

/-- `PacketParser.parseBinaryPacket` (PacketParser.js:95-157): a 4-byte header
(type, flags, 16-bit big-endian length) followed by the payload; any internal
error is caught and becomes a `binary_error` packet.  `binary_control`'s
payload decoding (`parseControlPayload`) never throws and is kept as raw
bytes here (scope). -/
def parseBinaryPacketModel (bytes : List Nat) : Packet :=
  if bytes.length < 4 then binErrorPacket "Binary packet too short"
  else
    match bytes with
    | b0 :: b1 :: b2 :: b3 :: payload =>
      if payload.length ≠ b2 * 256 + b3 then
        binErrorPacket "Binary packet length mismatch"
      else
        let base : PacketCore :=
          { packetType := some b0, flags := some b1, contentBytes := some payload }
        match b0 with
        | 1 => { core := { base with ptype := some "binary_message" } }
        | 2 => { core := { base with ptype := some "binary_media" } }
        | 3 => { core := { base with ptype := some "binary_control" } }
        | _ => { core := { base with ptype := some "binary_unknown" } }
    | _ => binErrorPacket "Binary packet too short"

/-- The conversion step of `parsePacket` (PacketParser.js:49-57): `none` means
the corresponding branch threw (caught by `parsePacket`'s `catch`). -/
def toPacketModel : InboundData → Option Packet
  | .malformedText => none
  | .nonObjectText => some { core := {} }
  | .jsonPacket p => some p
  | .objPacket p => some p
  | .bin bytes => some (parseBinaryPacketModel bytes)
  | .unsupported => none

/-- Result of one `parsePacket` call: the return value, emitted events, and
logged warnings (the `logger.warn` on signature failure is what claim C1 is
about). -/
structure ParseOut where
  ret : Option Packet
  events : List PEvent
  warnings : List String
  deriving DecidableEq, Repr

/-- `PacketParser.parsePacket` (PacketParser.js:44-90).  Control flow: convert
the raw data (throw → catch → emit `error`, return `null`); validate (invalid →
same catch); decrypt `encrypted` packets; if a signature is present and fails
verification, only a warning is logged and parsing continues; finally the
packet is routed and returned. -/
def parsePacketModel (creds : Option Credentials) (d : InboundData) : ParseOut :=
  match toPacketModel d with
  | none => { ret := none, events := [.errorEvent], warnings := [] }
  | some p =>
    if ¬ validatePacketModel p then
      { ret := none, events := [.errorEvent], warnings := [] }
    else
      let p := if p.core.ptype = some "encrypted" then decryptPacketModel creds p else p
      let warns :=
        if p.signature.isSome && ¬ verifySignatureModel creds p then
          ["Packet signature verification failed"]
        else []
      { ret := some p, events := routePacketModel p, warnings := warns }

/-! ## PacketBuilder (core/PacketBuilder.js) -/

/-- Mutable state of a `PacketBuilder` (core/PacketBuilder.js:14-17). -/
structure BuilderState where
  credentials : Option Credentials := none
  messageCounter : Nat := 0
  deriving DecidableEq, Repr

/-- `PacketBuilder.signPacket` (PacketBuilder.js:359-366): `null` without a
secret key, else the MAC of the sorted-key serialisation of the packet (which
does not yet contain a `signature` field). -/
def signPacketModel (creds : Option Credentials) (c : PacketCore) : Option Sig :=
  (creds.bind (·.secretKey)).map (Sig.hmac c)

/-- `PacketBuilder.buildMessagePacket` (PacketBuilder.js:55-76).  The fresh
`CryptoUtil.generateMessageId()` and `Date.now()` are explicit arguments; the
message counter is incremented on the builder state; `from` and `signature`
are attached only when credentials are set. -/
def buildMessagePacket (b : BuilderState) (dest content messageType : String)
    (freshMessageId : String) (now : Nat) : BuilderState × Packet :=
  let b' : BuilderState := { b with messageCounter := b.messageCounter + 1 }
  let core : PacketCore :=
    { ptype := some "message"
      messageId := some freshMessageId
      toId := some dest
      messageType := some messageType
      content := some content
      timestamp := some now
      counter := some b'.messageCounter
      fromId := if b.credentials.isSome then b.credentials.bind (·.clientId) else none }
  (b', { core := core, signature :=
          if b.credentials.isSome then signPacketModel b.credentials core else none })

/-- `PacketBuilder.buildHandshakePacket` (PacketBuilder.js:22-33):
`clientId` is `this.credentials?.clientId || CryptoUtil.generateClientId()`
(the `||` falls through on a missing or empty id); `version`/`browser` fields
omitted (scope).  Handshake packets are never signed. -/
def buildHandshakePacket (creds : Option Credentials)
    (freshClientId : String) (now : Nat) : Packet :=
  { core :=
    { ptype := some "handshake"
      timestamp := some now
      clientId := some (match creds.bind (·.clientId) with
        | some cid => if cid ≠ "" then cid else freshClientId
        | none => freshClientId) } }

/-! ## WhatsApp SDK client state (sdk/WhatsApp.js) -/

/-- The connection/authentication state of a `WhatsApp` client together with
the credentials bound to its codec halves (sdk/WhatsApp.js:66-78). -/
structure ClientState where
  builderCreds : Option Credentials
  parserCreds : Option Credentials
  isConnected : Bool
  isAuthenticated : Bool
  connectionState : String
  deriving DecidableEq, Repr

/-- The state set up by the `WhatsApp` constructor (sdk/WhatsApp.js:66-78):
`new PacketBuilder()` / `new PacketParser()` are constructed with `null`
credentials, disconnected and unauthenticated. -/
def whatsAppInit : ClientState :=
  { builderCreds := none
    parserCreds := none
    isConnected := false
    isAuthenticated := false
    connectionState := "close" }

/-- How the `WhatsApp` client reacts to one event emitted by its
`PacketParser` (sdk/WhatsApp.js:110-115, 412-431).  The subscribed handlers
(`handleMessagesUpsert`, `handleMessageReaction`, `handlePresenceUpdate`,
`handleGroupsUpdate`, `handleParserError`) only log and re-emit; the parser's
other events have no subscriber on the client.  No branch assigns
`isConnected`/`isAuthenticated`/`connectionState` or the bound credentials. -/
def applyParserEvent (st : ClientState) (e : PEvent) : ClientState :=
  match e with
  | .messagesUpsert _ => st  -- handleMessagesUpsert: this.emit only
  | .messagesReaction => st  -- handleMessageReaction: this.emit only
  | .presenceUpdate => st    -- handlePresenceUpdate: this.emit only
  | .groupsUpdate => st      -- handleGroupsUpdate: this.emit only
  | .errorEvent => st        -- handleParserError: log + this.emit only
  | _ => st                  -- no subscription on the client

/-- The branch taken by `WhatsApp.connect` (sdk/WhatsApp.js:121-144) after
`authManager.loadSession()` resolves: an existing session resumes, otherwise
QR pairing starts. -/
inductive ConnectPath where
  | viaSession
  | viaQR
  deriving DecidableEq, Repr

/-- `WhatsApp.connect`'s dispatch on the loaded session (sdk/WhatsApp.js:126-134). -/
def connectChoice {α : Type} (loaded : Option α) : ConnectPath :=
  if loaded.isSome then .viaSession else .viaQR

/-- `WhatsApp.connectWithQR` (sdk/WhatsApp.js:174-190): connect the transport,
then build and send a handshake with the builder's *current* credentials, then
generate a QR.  Returns the state after the open event and the handshake frame
that was encoded and sent. -/
def connectWithQRModel (st : ClientState) (freshClientId : String) (now : Nat) :
    ClientState × Packet :=
  ({ st with isConnected := true, connectionState := "open" },
   buildHandshakePacket st.builderCreds freshClientId now)

/-! ## Claim C1 — signature-failure handling in `parsePacket` -/

/-- Concrete parser credentials used for claims C1. -/
def c1Creds : Credentials := { clientId := some "client-1", secretKey := some "k" }

/-- A `message` packet whose signature is a forged string, not the MAC of its
body under `c1Creds`. -/
def c1Packet : Packet :=
  { core := { ptype := some "message", timestamp := some 5, toId := some "client-1",
              fromId := some "peer", content := some "hi" }
    signature := some (Sig.raw "forged") }

/-- **C1 — counterexample.** The claim says a packet whose signature fails
verification is dropped and never routed nor delivered as `messages.upsert`.
On the code it is false: `parsePacket` only logs a warning and still routes the
packet, so a bad-signature `message` packet is delivered as `messages.upsert`
and returned. -/
theorem c1_counterexample :
    verifySignatureModel (some c1Creds) c1Packet = false ∧
    (parsePacketModel (some c1Creds) (.objPacket c1Packet)).warnings =
      ["Packet signature verification failed"] ∧
    (parsePacketModel (some c1Creds) (.objPacket c1Packet)).events =
      [PEvent.messagesUpsert (mkMessageData c1Packet.core)] ∧
    (parsePacketModel (some c1Creds) (.objPacket c1Packet)).ret = some c1Packet := by
  decide

/-- **C1 — amended.** For every valid `message` packet carrying a signature
that fails verification against the session credentials, `parsePacket` logs
the failure as a warning but does **not** drop the packet: it is still routed
to its handler and delivered as a `messages.upsert` event and returned; the
failed verification by itself does not terminate the session (no client state
changes from the emitted events). -/
theorem c1_signature_failure_logged_not_dropped
    (creds : Credentials) (k : String) (hk : creds.secretKey = some k)
    (p : Packet) (hty : p.core.ptype = some "message")
    (hts : truthyN p.core.timestamp = true)
    (s : Sig) (hs : p.signature = some s) (hbad : s ≠ Sig.hmac p.core k) :
    (parsePacketModel (some creds) (.objPacket p)).warnings =
      ["Packet signature verification failed"] ∧
    (parsePacketModel (some creds) (.objPacket p)).events =
      [PEvent.messagesUpsert (mkMessageData p.core)] ∧
    (parsePacketModel (some creds) (.objPacket p)).ret = some p ∧
    ∀ st : ClientState,
      ((parsePacketModel (some creds) (.objPacket p)).events).foldl applyParserEvent st = st := by
  have hval : validatePacketModel p = true := by
    simp [validatePacketModel, hty, hts]
  have hne : p.core.ptype ≠ some "encrypted" := by simp [hty]
  have hver : verifySignatureModel (some creds) p = false := by
    simp [verifySignatureModel, Option.bind, hk, hs, hbad]
  have hroute : routePacketModel p = [PEvent.messagesUpsert (mkMessageData p.core)] := by
    simp only [routePacketModel, hty]
    simp [defaultHandlerEvents]
  have key : parsePacketModel (some creds) (.objPacket p) =
      { ret := some p, events := [PEvent.messagesUpsert (mkMessageData p.core)],
        warnings := ["Packet signature verification failed"] } := by
    simp only [parsePacketModel, toPacketModel, hval, hne, hver, hs, hroute]
    simp [hne, hver, hs, hroute]
  rw [key]
  exact ⟨rfl, rfl, rfl, fun st => rfl⟩

/-- **C1 — witness** for `c1_signature_failure_logged_not_dropped` at the
concrete packet `c1Packet`. -/
theorem c1_witness :
    c1Creds.secretKey = some "k" ∧
    c1Packet.core.ptype = some "message" ∧
    truthyN c1Packet.core.timestamp = true ∧
    c1Packet.signature = some (Sig.raw "forged") ∧
    Sig.raw "forged" ≠ Sig.hmac c1Packet.core "k" ∧
    ((parsePacketModel (some c1Creds) (.objPacket c1Packet)).warnings =
      ["Packet signature verification failed"] ∧
     (parsePacketModel (some c1Creds) (.objPacket c1Packet)).events =
      [PEvent.messagesUpsert (mkMessageData c1Packet.core)] ∧
     (parsePacketModel (some c1Creds) (.objPacket c1Packet)).ret = some c1Packet ∧
     ∀ st : ClientState,
       ((parsePacketModel (some c1Creds) (.objPacket c1Packet)).events).foldl
         applyParserEvent st = st) :=
  ⟨rfl, rfl, by decide, rfl, by decide,
   c1_signature_failure_logged_not_dropped c1Creds "k" rfl c1Packet rfl (by decide)
     (Sig.raw "forged") rfl (by decide)⟩

/-! ## Claim C2 — encode/decode round-trip and determinism -/

/-- Concrete builder state used for claim C2. -/
def c2Builder : BuilderState :=
  { credentials := some { clientId := some "client-1", secretKey := some "k" }
    messageCounter := 0 }

/-- **C2 — counterexample.** Encoding is not deterministic: two successive
`buildMessagePacket` calls with identical message inputs — even granting the
same fresh message id and the same clock reading — produce different frames,
because the builder's `messageCounter` is incremented on every call and is
embedded in the packet. -/
theorem c2_counterexample :
    (buildMessagePacket c2Builder "dest" "hello" "conversation" "MID1" 7).2 ≠
    (buildMessagePacket
        (buildMessagePacket c2Builder "dest" "hello" "conversation" "MID1" 7).1
        "dest" "hello" "conversation" "MID1" 7).2 := by
  decide

/-- **C2 — amended.** For all (message, credentials) pairs with a signing key
and a nonzero clock, decoding the frame produced by `buildMessagePacket` with
the same credentials succeeds: the parser returns exactly the built packet,
its signature verifies (no warning), it is delivered as `messages.upsert`, and
the packet carries the original `to`, `content` and `messageType`.  Encoding
however is **not** deterministic (see the counterexample): the message counter,
fresh message id and timestamp differ between calls. -/
theorem c2_roundtrip_not_deterministic
    (b : BuilderState) (c : Credentials) (k : String)
    (hc : b.credentials = some c) (hk : c.secretKey = some k)
    (dest content messageType freshId : String) (now : Nat) (hnow : now ≠ 0) :
    (parsePacketModel b.credentials
        (.jsonPacket (buildMessagePacket b dest content messageType freshId now).2)).ret =
      some (buildMessagePacket b dest content messageType freshId now).2 ∧
    (parsePacketModel b.credentials
        (.jsonPacket (buildMessagePacket b dest content messageType freshId now).2)).warnings
      = [] ∧
    (parsePacketModel b.credentials
        (.jsonPacket (buildMessagePacket b dest content messageType freshId now).2)).events =
      [PEvent.messagesUpsert
        (mkMessageData (buildMessagePacket b dest content messageType freshId now).2.core)] ∧
    (buildMessagePacket b dest content messageType freshId now).2.core.toId = some dest ∧
    (buildMessagePacket b dest content messageType freshId now).2.core.content = some content ∧
    (buildMessagePacket b dest content messageType freshId now).2.core.messageType =
      some messageType := by
  have h1 : (buildMessagePacket b dest content messageType freshId now).2.core.ptype
      = some "message" := by simp [buildMessagePacket]
  have hts : truthyN (buildMessagePacket b dest content messageType freshId now).2.core.timestamp
      = true := by simp [buildMessagePacket, truthyN, hnow]
  have hval : validatePacketModel
      (buildMessagePacket b dest content messageType freshId now).2 = true := by
    simp [validatePacketModel, h1, hts]
  have hsig : (buildMessagePacket b dest content messageType freshId now).2.signature
      = some (Sig.hmac (buildMessagePacket b dest content messageType freshId now).2.core k) := by
    simp [buildMessagePacket, signPacketModel, hc, hk]
  have hver : verifySignatureModel b.credentials
      (buildMessagePacket b dest content messageType freshId now).2 = true := by
    rw [hc]
    simp [verifySignatureModel, hk, hsig, hc]
  have hne : (buildMessagePacket b dest content messageType freshId now).2.core.ptype
      ≠ some "encrypted" := by simp [h1]
  have hroute : routePacketModel (buildMessagePacket b dest content messageType freshId now).2 =
      [PEvent.messagesUpsert
        (mkMessageData (buildMessagePacket b dest content messageType freshId now).2.core)] := by
    simp only [routePacketModel, h1]
    simp [defaultHandlerEvents]
  have key : parsePacketModel b.credentials
      (.jsonPacket (buildMessagePacket b dest content messageType freshId now).2) =
      { ret := some (buildMessagePacket b dest content messageType freshId now).2,
        events := [PEvent.messagesUpsert
          (mkMessageData (buildMessagePacket b dest content messageType freshId now).2.core)],
        warnings := [] } := by
    simp only [parsePacketModel, toPacketModel, hval, hne, hver, hroute]
    simp [hne, hver, hsig, hroute]
  rw [key]
  refine ⟨rfl, rfl, rfl, ?_, ?_, ?_⟩ <;> simp [buildMessagePacket]

/-- **C2 — witness** for `c2_roundtrip_not_deterministic` at concrete inputs. -/
theorem c2_witness :
    c2Builder.credentials = some { clientId := some "client-1", secretKey := some "k" } ∧
    (7 : Nat) ≠ 0 ∧
    ((parsePacketModel c2Builder.credentials
        (.jsonPacket (buildMessagePacket c2Builder "dest" "hello" "conversation" "MID1" 7).2)).ret =
      some (buildMessagePacket c2Builder "dest" "hello" "conversation" "MID1" 7).2 ∧
     (parsePacketModel c2Builder.credentials
        (.jsonPacket (buildMessagePacket c2Builder "dest" "hello" "conversation" "MID1" 7).2)).warnings
       = [] ∧
     (parsePacketModel c2Builder.credentials
        (.jsonPacket (buildMessagePacket c2Builder "dest" "hello" "conversation" "MID1" 7).2)).events =
      [PEvent.messagesUpsert
        (mkMessageData (buildMessagePacket c2Builder "dest" "hello" "conversation" "MID1" 7).2.core)] ∧
     (buildMessagePacket c2Builder "dest" "hello" "conversation" "MID1" 7).2.core.toId =
       some "dest" ∧
     (buildMessagePacket c2Builder "dest" "hello" "conversation" "MID1" 7).2.core.content =
       some "hello" ∧
     (buildMessagePacket c2Builder "dest" "hello" "conversation" "MID1" 7).2.core.messageType =
       some "conversation") :=
  ⟨rfl, by decide,
   c2_roundtrip_not_deterministic c2Builder { clientId := some "client-1", secretKey := some "k" }
     "k" rfl rfl "dest" "hello" "conversation" "MID1" 7 (by decide)⟩

/-! ## Claim C5 — codec use before credentials are bound -/

/-- **C5 — counterexample.** The invariant "the codec is only asked to
encode/decode while valid credentials are bound, and never before pairing
succeeds" is false on the code: in the freshly constructed client state
(credentials `null`, not authenticated), `connect()` with no stored session
takes the QR path, and `connectWithQR` asks `PacketBuilder` to encode a
handshake frame — the builder falls back to a freshly generated client id. -/
theorem c5_counterexample :
    whatsAppInit.builderCreds = none ∧
    whatsAppInit.isAuthenticated = false ∧
    connectChoice (none : Option Unit) = ConnectPath.viaQR ∧
    (connectWithQRModel whatsAppInit "chatpulse_f8a1" 9).2 =
      { core := { ptype := some "handshake", timestamp := some 9,
                  clientId := some "chatpulse_f8a1" } } := by
  decide

/-- **C5 — amended.** The invariant does not hold: codec operations do run
before pairing.  From any client state with no builder credentials (such as the
constructor state), `connectWithQR` encodes and sends a handshake frame whose
client id is the freshly generated fallback; and any message encoded without
credentials carries neither a `from` field nor a signature. -/
theorem c5_codec_runs_without_credentials
    (st : ClientState) (h : st.builderCreds = none) (freshCid : String) (now : Nat)
    (b : BuilderState) (hb : b.credentials = none)
    (dest content messageType freshId : String) (n2 : Nat) :
    (connectWithQRModel st freshCid now).2 =
      { core := { ptype := some "handshake", timestamp := some now,
                  clientId := some freshCid } } ∧
    (buildMessagePacket b dest content messageType freshId n2).2.signature = none ∧
    (buildMessagePacket b dest content messageType freshId n2).2.core.fromId = none := by
  refine ⟨?_, ?_, ?_⟩
  · simp [connectWithQRModel, buildHandshakePacket, h, Option.bind]
  · simp [buildMessagePacket, hb]
  · simp [buildMessagePacket, hb]

/-- **C5 — witness** for `c5_codec_runs_without_credentials` at the
constructor state. -/
theorem c5_witness :
    whatsAppInit.builderCreds = none ∧
    ({ credentials := none, messageCounter := 0 } : BuilderState).credentials = none ∧
    ((connectWithQRModel whatsAppInit "chatpulse_f8a1" 9).2 =
      { core := { ptype := some "handshake", timestamp := some 9,
                  clientId := some "chatpulse_f8a1" } } ∧
     (buildMessagePacket { credentials := none, messageCounter := 0 }
        "dest" "hi" "conversation" "MID1" 7).2.signature = none ∧
     (buildMessagePacket { credentials := none, messageCounter := 0 }
        "dest" "hi" "conversation" "MID1" 7).2.core.fromId = none) :=
  ⟨rfl, rfl,
   c5_codec_runs_without_credentials whatsAppInit rfl "chatpulse_f8a1" 9
     { credentials := none, messageCounter := 0 } rfl "dest" "hi" "conversation" "MID1" 7⟩

/-! ## Claim C8 — malformed inbound frames -/

/-- **C8.** For every malformed inbound frame — bytes or text the conversion
step throws on, or a packet failing `validatePacket` (missing/empty type,
missing timestamp) — `parsePacket` returns `null` (no exception escapes, by
totality of the model), emits only an `error` event and in particular no
`messages.upsert`, and the client's connection/authentication state is
unchanged by the emitted events. -/
theorem c8_malformed_frame_safe (creds : Option Credentials) (d : InboundData)
    (h : toPacketModel d = none ∨
      ∃ p, toPacketModel d = some p ∧ validatePacketModel p = false) :
    (parsePacketModel creds d).ret = none ∧
    (parsePacketModel creds d).events = [PEvent.errorEvent] ∧
    (∀ m, PEvent.messagesUpsert m ∉ (parsePacketModel creds d).events) ∧
    ∀ st : ClientState,
      ((parsePacketModel creds d).events).foldl applyParserEvent st = st := by
  rcases h with h | ⟨p, hp, hval⟩
  · simp [parsePacketModel, h, applyParserEvent]
  · simp [parsePacketModel, hp, hval, applyParserEvent]

/-- **C8 — witness** for `c8_malformed_frame_safe` at a concrete malformed
binary frame (header announces a 5-byte payload, none follows). -/
theorem c8_witness :
    (toPacketModel (.bin [1, 0, 0, 5]) =
        some (binErrorPacket "Binary packet length mismatch") ∧
     validatePacketModel (binErrorPacket "Binary packet length mismatch") = false) ∧
    ((parsePacketModel none (.bin [1, 0, 0, 5])).ret = none ∧
     (parsePacketModel none (.bin [1, 0, 0, 5])).events = [PEvent.errorEvent] ∧
     (∀ m, PEvent.messagesUpsert m ∉ (parsePacketModel none (.bin [1, 0, 0, 5])).events) ∧
     ∀ st : ClientState,
       ((parsePacketModel none (.bin [1, 0, 0, 5])).events).foldl applyParserEvent st = st) :=
  ⟨⟨by decide, by decide⟩,
   c8_malformed_frame_safe none (.bin [1, 0, 0, 5])
     (Or.inr ⟨binErrorPacket "Binary packet length mismatch", by decide, by decide⟩)⟩

/-! ## WebSocketManager (src/core/WebSocketManager.js) -/

/-- Mutable state of a `WebSocketManager` (WebSocketManager.js:16-36); the
`ws` handle is folded into `isConnected`, queued frames are strings. -/
structure WSState where
  isConnected : Bool
  isConnecting : Bool
  reconnectAttempts : Nat
  maxReconnectAttempts : Nat
  reconnectDelay : Nat
  messageQueue : List String
  isProcessingQueue : Bool
  deriving DecidableEq, Repr

/-- Constructor state (WebSocketManager.js:16-28) with the given
`reconnectDelay` and `maxReconnectAttempts` options. -/
def wsInit (base maxA : Nat) : WSState :=
  { isConnected := false
    isConnecting := false
    reconnectAttempts := 0
    maxReconnectAttempts := maxA
    reconnectDelay := base
    messageQueue := []
    isProcessingQueue := false }

/-- Outcome of one `send` call. -/
inductive SendOut where
  | queued
  | sent (m : String)
  deriving DecidableEq, Repr

/-- `WebSocketManager.send` (WebSocketManager.js:285-314): while not connected
the frame is appended to `messageQueue` and the call returns normally (no
error to the caller); otherwise it goes to the socket. -/
def wsSend (s : WSState) (m : String) : WSState × SendOut :=
  if s.isConnected = false then
    ({ s with messageQueue := s.messageQueue ++ [m] }, .queued)
  else (s, .sent m)

/-- A sequence of `send` calls. -/
def wsSendAll (s : WSState) (msgs : List String) : WSState :=
  msgs.foldl (fun t m => (wsSend t m).1) s

/-- The `while` loop of `processMessageQueue` (WebSocketManager.js:327-338):
shift the front of the queue and send it while connected (the transport is
assumed up for the whole flush; the re-queue-on-throw branch is not
exercised).  Returns the remaining queue and the frames sent, in order. -/
def flushQueue : List String → Bool → List String × List String
  | q, false => (q, [])
  | [], true => ([], [])
  | m :: rest, true =>
    let r := flushQueue rest true
    (r.1, m :: r.2)

/-- `WebSocketManager.processMessageQueue` (WebSocketManager.js:319-341):
early return when already processing or the queue is empty, else run the
flush loop (the `isProcessingQueue` flag is set and cleared around it). -/
def processMessageQueueModel (s : WSState) : WSState × List String :=
  if s.isProcessingQueue || s.messageQueue.isEmpty then (s, [])
  else
    let r := flushQueue s.messageQueue s.isConnected
    ({ s with messageQueue := r.1 }, r.2)

/-- `WebSocketManager.handleOpen` (WebSocketManager.js:120-132): mark
connected, reset the reconnect counter, and flush the queue. -/
def handleOpenModel (s : WSState) : WSState × List String :=
  processMessageQueueModel
    { s with isConnected := true, isConnecting := false, reconnectAttempts := 0 }

/-- `WebSocketManager.scheduleReconnect` (WebSocketManager.js:266-280):
increment the attempt counter and compute
`delay = reconnectDelay * 2 ^ (attempts - 1)` — no cap is applied. -/
def scheduleReconnectModel (s : WSState) : WSState × Nat :=
  ({ s with reconnectAttempts := s.reconnectAttempts + 1 },
   s.reconnectDelay * 2 ^ (s.reconnectAttempts + 1 - 1))

/-- `WebSocketManager.handleClose` (WebSocketManager.js:191-208): mark
disconnected; schedule a reconnect (returning its delay) only when the close
was not manual (`code !== 1000`) and the attempt ceiling is not reached.
Nothing else happens when the ceiling is reached — no terminal event, no
state transition beyond the disconnect flags. -/
def handleCloseModel (s : WSState) (code : Nat) : WSState × Option Nat :=
  if code ≠ 1000 ∧ s.reconnectAttempts < s.maxReconnectAttempts then
    ((scheduleReconnectModel { s with isConnected := false, isConnecting := false }).1,
     some (scheduleReconnectModel { s with isConnected := false, isConnecting := false }).2)
  else ({ s with isConnected := false, isConnecting := false }, none)

/-- `k` consecutive non-manual transport failures (close code 1006), together
with the list of reconnect delays scheduled along the way. -/
def closeRun (s : WSState) : Nat → WSState × List Nat
  | 0 => (s, [])
  | k + 1 =>
    let r := closeRun s k
    let r2 := handleCloseModel r.1 1006
    (r2.1, r.2 ++ r2.2.toList)

theorem handleCloseModel_delay_fields (s : WSState) (code : Nat) :
    (handleCloseModel s code).1.reconnectDelay = s.reconnectDelay ∧
    (handleCloseModel s code).1.maxReconnectAttempts = s.maxReconnectAttempts := by
  by_cases h : code ≠ 1000 ∧ s.reconnectAttempts < s.maxReconnectAttempts <;>
    simp [handleCloseModel, scheduleReconnectModel, h]

theorem closeRun_fields (s : WSState) (k : Nat) :
    (closeRun s k).1.reconnectDelay = s.reconnectDelay ∧
    (closeRun s k).1.maxReconnectAttempts = s.maxReconnectAttempts := by
  induction k with
  | zero => exact ⟨rfl, rfl⟩
  | succ k ih =>
    have h := handleCloseModel_delay_fields (closeRun s k).1 1006
    simp only [closeRun]
    exact ⟨h.1.trans ih.1, h.2.trans ih.2⟩

theorem handleCloseModel_attempts_pos (s : WSState) (code : Nat)
    (h : code ≠ 1000 ∧ s.reconnectAttempts < s.maxReconnectAttempts) :
    (handleCloseModel s code).1.reconnectAttempts = s.reconnectAttempts + 1 := by
  simp [handleCloseModel, if_pos h, scheduleReconnectModel]

theorem handleCloseModel_attempts_neg (s : WSState) (code : Nat)
    (h : ¬ (code ≠ 1000 ∧ s.reconnectAttempts < s.maxReconnectAttempts)) :
    (handleCloseModel s code).1.reconnectAttempts = s.reconnectAttempts := by
  simp only [handleCloseModel, if_neg h]

theorem handleCloseModel_sched_pos (s : WSState) (code : Nat)
    (h : code ≠ 1000 ∧ s.reconnectAttempts < s.maxReconnectAttempts) :
    (handleCloseModel s code).2 =
      some (s.reconnectDelay * 2 ^ (s.reconnectAttempts + 1 - 1)) := by
  simp [handleCloseModel, if_pos h, scheduleReconnectModel]

theorem handleCloseModel_sched_neg (s : WSState) (code : Nat)
    (h : ¬ (code ≠ 1000 ∧ s.reconnectAttempts < s.maxReconnectAttempts)) :
    (handleCloseModel s code).2 = none := by
  simp only [handleCloseModel, if_neg h]

theorem closeRun_wsInit_attempts (base maxA k : Nat) :
    (closeRun (wsInit base maxA) k).1.reconnectAttempts = min k maxA := by
  induction k with
  | zero => simp [closeRun, wsInit]
  | succ k ih =>
    have hmax : (closeRun (wsInit base maxA) k).1.maxReconnectAttempts = maxA :=
      (closeRun_fields (wsInit base maxA) k).2
    by_cases hlt : min k maxA < maxA
    · have h : (1006 : Nat) ≠ 1000 ∧
          (closeRun (wsInit base maxA) k).1.reconnectAttempts <
            (closeRun (wsInit base maxA) k).1.maxReconnectAttempts := by
        rw [ih, hmax]
        exact ⟨by norm_num, hlt⟩
      simp only [closeRun]
      rw [handleCloseModel_attempts_pos _ 1006 h, ih]
      omega
    · have h : ¬ ((1006 : Nat) ≠ 1000 ∧
          (closeRun (wsInit base maxA) k).1.reconnectAttempts <
            (closeRun (wsInit base maxA) k).1.maxReconnectAttempts) := by
        rw [ih, hmax]
        rintro ⟨-, hl⟩
        exact hlt hl
      simp only [closeRun]
      rw [handleCloseModel_attempts_neg _ 1006 h, ih]
      omega

theorem closeRun_delays (base maxA k : Nat) (hk : k ≤ maxA) :
    (closeRun (wsInit base maxA) k).2 = (List.range k).map (fun i => base * 2 ^ i) := by
  induction k with
  | zero => simp [closeRun]
  | succ k ih =>
    have hk' : k ≤ maxA := Nat.le_of_succ_le hk
    have hatt : (closeRun (wsInit base maxA) k).1.reconnectAttempts = k := by
      rw [closeRun_wsInit_attempts]
      omega
    have hbase : (closeRun (wsInit base maxA) k).1.reconnectDelay = base :=
      (closeRun_fields (wsInit base maxA) k).1
    have hmax : (closeRun (wsInit base maxA) k).1.maxReconnectAttempts = maxA :=
      (closeRun_fields (wsInit base maxA) k).2
    have hcond : (1006 : Nat) ≠ 1000 ∧
        (closeRun (wsInit base maxA) k).1.reconnectAttempts <
          (closeRun (wsInit base maxA) k).1.maxReconnectAttempts := by
      rw [hatt, hmax]
      exact ⟨by norm_num, by omega⟩
    simp only [closeRun]
    rw [handleCloseModel_sched_pos _ 1006 hcond, ih hk', hatt, hbase, List.range_succ]
    simp

/-! ## Claim C3 — reconnect backoff -/

/-- **C3 — counterexample.** The claim says reconnect delays are capped at a
maximum.  They are not: for every candidate cap `M` there is a run of
consecutive transport failures (within the configurable attempt ceiling) whose
scheduled delay exceeds `M` — `scheduleReconnect` computes
`reconnectDelay * 2 ^ (attempts - 1)` with no cap. -/
theorem c3_counterexample :
    ¬ ∃ M : Nat, ∀ d ∈ (closeRun (wsInit 1000 (M + 1)) (M + 1)).2, d ≤ M := by
  rintro ⟨M, hM⟩
  have hd : 1000 * 2 ^ M ∈ (closeRun (wsInit 1000 (M + 1)) (M + 1)).2 := by
    rw [closeRun_delays 1000 (M + 1) (M + 1) le_rfl]
    exact List.mem_map.2 ⟨M, List.mem_range.2 (Nat.lt_succ_self M), rfl⟩
  have h1 := hM _ hd
  have h2 : M < 2 ^ M := Nat.lt_two_pow M
  have h3 : 2 ^ M ≤ 1000 * 2 ^ M := Nat.le_mul_of_pos_left _ (by norm_num)
  omega

/-- **C3 — amended.** For every run of `k ≤ maxReconnectAttempts` consecutive
transport failures, the delay before the `n`-th reconnection attempt is
exactly `base * 2 ^ (n - 1)` — uncapped; with base 1000 ms the first five
delays are 1000, 2000, 4000, 8000, 16000 ms; and once the attempt ceiling is
reached no further retry is scheduled (but no terminal-error close occurs
either: the manager merely stops scheduling). -/
theorem c3_uncapped_backoff_and_ceiling (base maxA k : Nat) (hk : k ≤ maxA)
    (code : Nat) :
    (closeRun (wsInit base maxA) k).2 = (List.range k).map (fun i => base * 2 ^ i) ∧
    (closeRun (wsInit 1000 10) 5).2 = [1000, 2000, 4000, 8000, 16000] ∧
    (handleCloseModel (closeRun (wsInit base maxA) maxA).1 code).2 = none := by
  refine ⟨closeRun_delays base maxA k hk, ?_, ?_⟩
  · rw [closeRun_delays 1000 10 5 (by norm_num)]
    rfl
  · have hatt : (closeRun (wsInit base maxA) maxA).1.reconnectAttempts = maxA := by
      rw [closeRun_wsInit_attempts]
      omega
    have hmax : (closeRun (wsInit base maxA) maxA).1.maxReconnectAttempts = maxA :=
      (closeRun_fields (wsInit base maxA) maxA).2
    have hcond : ¬ (code ≠ 1000 ∧
        (closeRun (wsInit base maxA) maxA).1.reconnectAttempts <
          (closeRun (wsInit base maxA) maxA).1.maxReconnectAttempts) := by
      rw [hatt, hmax]
      rintro ⟨-, hlt⟩
      omega
    exact handleCloseModel_sched_neg _ code hcond

/-- **C3 — witness** for `c3_uncapped_backoff_and_ceiling` with base 1000,
ceiling 10, five failures, close code 1006. -/
theorem c3_witness :
    (5 : Nat) ≤ 10 ∧
    ((closeRun (wsInit 1000 10) 5).2 = (List.range 5).map (fun i => 1000 * 2 ^ i) ∧
     (closeRun (wsInit 1000 10) 5).2 = [1000, 2000, 4000, 8000, 16000] ∧
     (handleCloseModel (closeRun (wsInit 1000 10) 10).1 1006).2 = none) :=
  ⟨by norm_num, c3_uncapped_backoff_and_ceiling 1000 10 5 (by norm_num) 1006⟩

/-! ## Claim C4 — offline send queue -/

theorem wsSendAll_disconnected (s : WSState) (h : s.isConnected = false)
    (msgs : List String) :
    wsSendAll s msgs = { s with messageQueue := s.messageQueue ++ msgs } := by
  induction msgs generalizing s with
  | nil => simp [wsSendAll]
  | cons m rest ih =>
    have h1 : (wsSend s m).1 = { s with messageQueue := s.messageQueue ++ [m] } := by
      simp [wsSend, h]
    have h2 : wsSendAll s (m :: rest) = wsSendAll (wsSend s m).1 rest := rfl
    rw [h2, h1, ih { s with messageQueue := s.messageQueue ++ [m] } h]
    simp

theorem flushQueue_connected (q : List String) : flushQueue q true = ([], q) := by
  induction q with
  | nil => rfl
  | cons m rest ih => simp [flushQueue, ih]

/-- **C4 — counterexample.** The claim says the offline queue is bounded with
drop-oldest overflow handling.  It is not: `send` pushes unconditionally, so
for every candidate bound `B` there is a sequence of offline sends after which
the queue holds more than `B` entries (none dropped, no warning logged). -/
theorem c4_counterexample :
    ¬ ∃ B : Nat, ∀ msgs : List String,
      (wsSendAll (wsInit 1000 10) msgs).messageQueue.length ≤ B := by
  rintro ⟨B, hB⟩
  have h := hB (List.replicate (B + 1) "m")
  rw [wsSendAll_disconnected (wsInit 1000 10) rfl] at h
  simp [wsInit] at h

/-- **C4 — amended.** Every send issued while the transport is not connected
is appended to the queue in FIFO order and returns normally to the caller, but
the queue is unbounded (no overflow handling exists; see the counterexample);
when the connection (re)opens, the queued sends are flushed in their original
order with no duplication and no loss, leaving the queue empty. -/
theorem c4_fifo_unbounded_queue_flush (s : WSState) (hconn : s.isConnected = false)
    (hproc : s.isProcessingQueue = false) (msgs : List String) :
    (wsSendAll s msgs).messageQueue = s.messageQueue ++ msgs ∧
    (∀ m, (wsSend s m).2 = SendOut.queued) ∧
    (handleOpenModel (wsSendAll s msgs)).2 = s.messageQueue ++ msgs ∧
    (handleOpenModel (wsSendAll s msgs)).1.messageQueue = [] := by
  rw [wsSendAll_disconnected s hconn msgs]
  refine ⟨rfl, fun m => by simp [wsSend, hconn], ?_, ?_⟩ <;>
  · simp only [handleOpenModel, processMessageQueueModel, hproc, flushQueue_connected]
    rcases h : s.messageQueue ++ msgs with _ | ⟨m, rest⟩ <;>
      simp [flushQueue_connected, hproc, h]

/-- **C4 — witness** for `c4_fifo_unbounded_queue_flush` on a concrete
disconnected state with two queued frames. -/
theorem c4_witness :
    (wsInit 1000 10).isConnected = false ∧
    (wsInit 1000 10).isProcessingQueue = false ∧
    ((wsSendAll (wsInit 1000 10) ["a", "b"]).messageQueue =
        (wsInit 1000 10).messageQueue ++ ["a", "b"] ∧
     (∀ m, (wsSend (wsInit 1000 10) m).2 = SendOut.queued) ∧
     (handleOpenModel (wsSendAll (wsInit 1000 10) ["a", "b"])).2 =
        (wsInit 1000 10).messageQueue ++ ["a", "b"] ∧
     (handleOpenModel (wsSendAll (wsInit 1000 10) ["a", "b"])).1.messageQueue = []) :=
  ⟨rfl, rfl, c4_fifo_unbounded_queue_flush (wsInit 1000 10) rfl rfl ["a", "b"]⟩

/-! ## QRManager (src/core/QRManager.js) -/

/-- One batch of fresh values drawn by `QRManager.generateQRData`
(QRManager.js:136-162): a client id (`CryptoUtil.generateClientId()`), a
server ref (`CryptoUtil.randomBase64(16)`), and the generated private key. -/
structure QRFresh where
  clientId : String
  serverRef : String
  privateKey : String
  deriving DecidableEq, Repr

/-- State of a `QRManager` (QRManager.js:17-27).  `randIdx` is the position in
the stream of fresh random batches consumed so far (model bookkeeping for the
explicit randomness stream). -/
structure QRState where
  clientId : Option String
  serverRef : Option String
  privateKey : Option String
  timerRunning : Bool
  randIdx : Nat
  deriving DecidableEq, Repr

/-- The scan-result object passed to `processQRScan`. -/
structure ScanData where
  clientId : Option String
  serverRef : Option String
  publicKey : Option String
  secretKey : Option String
  deriving DecidableEq, Repr

/-- `QRManager.generateQRData` followed by `generateQR`/`startQRTimer`
(QRManager.js:32-69, 136-162, 212-220): draw the next fresh batch, install its
identifiers, and (re)start the expiry timer.  `refreshQR`
(QRManager.js:235-247) is exactly this operation, so the same function models
one expiry-timer firing. -/
def generateQRDataModel (rand : Nat → QRFresh) (st : QRState) : QRState :=
  { clientId := some (rand st.randIdx).clientId
    serverRef := some (rand st.randIdx).serverRef
    privateKey := some (rand st.randIdx).privateKey
    timerRunning := true
    randIdx := st.randIdx + 1 }

/-- The manager right after the first `generateQR` (as invoked by
`connectWithQR` with `{ ref: 'new_session' }`, which has no `publicKey` and so
falls through to `generateQRData`). -/
def qrInitial (rand : Nat → QRFresh) : QRState :=
  generateQRDataModel rand
    { clientId := none, serverRef := none, privateKey := none,
      timerRunning := false, randIdx := 0 }

/-- The manager state at time `t` (ms) after the first challenge was generated
at time 0 with expiry timeout `T`, assuming no scan resolved in between: the
timer fires and `refreshQR` replaces the challenge once every `T`
milliseconds, i.e. `t / T` times by time `t`. -/
def qrStateAt (rand : Nat → QRFresh) (T t : Nat) : QRState :=
  (generateQRDataModel rand)^[t / T] (qrInitial rand)

/-- `QRManager.validateQRScan` (QRManager.js:252-279): all four fields must be
truthy and the scan's client id must equal the manager's current one. -/
def validateQRScanModel (st : QRState) (scan : ScanData) : Bool :=
  truthyS scan.clientId && truthyS scan.serverRef &&
  truthyS scan.publicKey && truthyS scan.secretKey &&
  decide (scan.clientId = st.clientId)

/-- The credentials object produced by a successful `processQRScan`
(QRManager.js:300-307). -/
structure QRAuthCredentials where
  clientId : Option String
  serverRef : Option String
  publicKey : Option String
  secretKey : Option String
  privateKey : Option String
  timestamp : Nat
  deriving DecidableEq, Repr

/-- `QRManager.processQRScan` (QRManager.js:284-317): failed validation throws
`Invalid QR scan data`; success stops the timer and returns the assembled
credentials. -/
def processQRScanModel (st : QRState) (scan : ScanData) (now : Nat) :
    Except String (QRState × QRAuthCredentials) :=
  if validateQRScanModel st scan = false then .error "Invalid QR scan data"
  else .ok ({ st with timerRunning := false },
    { clientId := scan.clientId, serverRef := scan.serverRef,
      publicKey := scan.publicKey, secretKey := scan.secretKey,
      privateKey := st.privateKey, timestamp := now })

theorem qrIter_clientId (rand : Nat → QRFresh) (n : Nat) :
    ((generateQRDataModel rand)^[n] (qrInitial rand)).clientId =
      some ((rand n).clientId) ∧
    ((generateQRDataModel rand)^[n] (qrInitial rand)).randIdx = n + 1 := by
  induction n with
  | zero => exact ⟨rfl, rfl⟩
  | succ n ih =>
    rw [Function.iterate_succ_apply']
    refine ⟨?_, ?_⟩ <;> simp [generateQRDataModel, ih.2]

/-! ## Claim C6 — expired pairing challenges -/

/-- **C6.** For every pairing challenge with expiry timeout `T`, assuming the
fresh client ids are pairwise distinct, no `processQRScan` call made more than
`T` after the challenge was generated succeeds with that challenge's scan
data: the expiry timer has replaced the challenge (new client id), so the old
scan data fails `validateQRScan` and `processQRScan` throws. -/
theorem c6_expired_qr_scan_fails (rand : Nat → QRFresh)
    (hinj : Function.Injective fun k => (rand k).clientId)
    (T t : Nat) (hT : 0 < T) (ht : T < t) (scan : ScanData) (now : Nat)
    (hcid : scan.clientId = some ((rand 0).clientId)) :
    validateQRScanModel (qrStateAt rand T t) scan = false ∧
    ∀ out, processQRScanModel (qrStateAt rand T t) scan now ≠ .ok out := by
  have h1 : 1 ≤ t / T := (Nat.one_le_div_iff hT).2 (le_of_lt ht)
  have hcl : (qrStateAt rand T t).clientId = some ((rand (t / T)).clientId) :=
    (qrIter_clientId rand (t / T)).1
  have hne : (rand 0).clientId ≠ (rand (t / T)).clientId := by
    intro h
    have := hinj h
    omega
  have hval : validateQRScanModel (qrStateAt rand T t) scan = false := by
    simp [validateQRScanModel, hcl, hcid, hne]
  refine ⟨hval, fun out h => ?_⟩
  simp [processQRScanModel, hval] at h

/-- Distinct strings indexed by naturals, for the C6 witness randomness. -/
def natName (n : Nat) : String := String.mk (List.replicate n 'a')

theorem natName_injective : Function.Injective natName := by
  intro a b h
  have h2 : (natName a).data = (natName b).data := congrArg String.data h
  simp only [natName] at h2
  have h3 := congrArg List.length h2
  simpa using h3

/-- Concrete randomness stream for the C6 witness. -/
def c6Rand : Nat → QRFresh := fun k => ⟨natName (k + 1), "sref", "pkey"⟩

theorem c6Rand_injective : Function.Injective fun k => (c6Rand k).clientId := by
  intro a b h
  have h2 : natName (a + 1) = natName (b + 1) := h
  have h3 := natName_injective h2
  omega

/-- The stale scan data of the C6 witness, referencing the first challenge. -/
def c6Scan : ScanData :=
  { clientId := some ((c6Rand 0).clientId), serverRef := some "sref",
    publicKey := some "pub", secretKey := some "secret" }

/-- **C6 — witness** for `c6_expired_qr_scan_fails`: the default 60 s timeout,
a scan arriving at 61 s with otherwise-valid data for the first challenge. -/
theorem c6_witness :
    Function.Injective (fun k => (c6Rand k).clientId) ∧
    (0 : Nat) < 60000 ∧ (60000 : Nat) < 61000 ∧
    c6Scan.clientId = some ((c6Rand 0).clientId) ∧
    (validateQRScanModel (qrStateAt c6Rand 60000 61000) c6Scan = false ∧
     ∀ out, processQRScanModel (qrStateAt c6Rand 60000 61000) c6Scan 61000 ≠ .ok out) :=
  ⟨c6Rand_injective, by norm_num, by norm_num, rfl,
   c6_expired_qr_scan_fails c6Rand c6Rand_injective 60000 61000 (by norm_num)
     (by norm_num) c6Scan 61000 rfl⟩

/-! ## AuthManager (core/AuthManager.js) -/

/-- A stored credential field value.  `Val.str s` is a plain string;
`Val.b64 v` is `CryptoUtil.encodeBase64` applied to `v` (base64 of a nonempty
string is a strictly longer string, so the encoding is injective and never a
fixed point — modelled by the injective constructor). -/
inductive Val where
  | str (s : String)
  | b64 (v : Val)
  deriving DecidableEq, Repr

/-- JavaScript truthiness of a `Val`: the empty string is falsy, and base64
preserves (non)emptiness. -/
def Val.truthy : Val → Bool
  | .str s => s ≠ ""
  | .b64 v => v.truthy

/-- Truthiness of an optional credential field. -/
def truthyV : Option Val → Bool
  | some v => v.truthy
  | none => false

theorem Val.b64_ne (v : Val) : Val.b64 v ≠ v := by
  induction v with
  | str s => exact fun h => Val.noConfusion h
  | b64 w ih => exact fun h => ih (Val.b64.inj h)

/-- The credentials object persisted by `AuthManager`
(`processAuthentication`, AuthManager.js:262-274); `deviceId`/`browserVersion`
omitted (scope). -/
structure SessCreds where
  clientId : Option Val := none
  serverRef : Option Val := none
  publicKey : Option Val := none
  secretKey : Option Val := none
  privateKey : Option Val := none
  sessionToken : Option Val := none
  clientToken : Option Val := none
  createdAt : Option Nat := none
  lastUsed : Option Nat := none
  deriving DecidableEq, Repr

/-- A parsed session file (`sessionData`, AuthManager.js:169-175, plus the
`encrypted` flag set by `encryptSession`); the constant `version` field is
omitted (scope). -/
structure SessionFile where
  sessionId : Option String := none
  credentials : Option SessCreds := none
  createdAt : Option Nat := none
  lastUsed : Option Nat := none
  encrypted : Bool := false
  deriving DecidableEq, Repr

/-- One sensitive field under `encryptSession`'s
`if (encrypted.credentials[field]) encodeBase64(...)`: only truthy values are
encoded. -/
def encFieldModel : Option Val → Option Val
  | some v => if v.truthy then some (Val.b64 v) else some v
  | none => none

/-- `AuthManager.encryptSession` (AuthManager.js:379-400): base64-encode the
four truthy sensitive credential fields and set `encrypted`; with no
credentials object the field access throws and the catch returns the input
unchanged. -/
def encryptSessionModel (s : SessionFile) : SessionFile :=
  match s.credentials with
  | none => s
  | some c =>
    { s with
      credentials := some { c with
        secretKey := encFieldModel c.secretKey
        privateKey := encFieldModel c.privateKey
        sessionToken := encFieldModel c.sessionToken
        clientToken := encFieldModel c.clientToken }
      encrypted := true }

/-- JavaScript `x || y` on an optional number (`0` is falsy). -/
def orTruthyNat (x : Option Nat) (y : Nat) : Nat :=
  match x with
  | some n => if n ≠ 0 then n else y
  | none => y

/-- `AuthManager.saveSession` (AuthManager.js:156-192): wrap the credentials
in a session record (`createdAt := credentials.createdAt || Date.now()`,
`lastUsed := Date.now()`), encrypt, and write — the written file is the
returned value. -/
def saveSessionModel (sessionId : String) (creds : SessCreds) (now : Nat) :
    SessionFile :=
  encryptSessionModel
    { sessionId := some sessionId
      credentials := some creds
      createdAt := some (orTruthyNat creds.createdAt now)
      lastUsed := some now
      encrypted := false }

/-- `AuthManager.validateSession` (AuthManager.js:336-360): `sessionId`,
`credentials`, `createdAt`, `lastUsed` must all be truthy, and the credentials
must have truthy `clientId`, `serverRef`, `secretKey`. -/
def validateSessionModel (s : SessionFile) : Bool :=
  truthyS s.sessionId && s.credentials.isSome &&
  truthyN s.createdAt && truthyN s.lastUsed &&
  (match s.credentials with
   | some c => truthyV c.clientId && truthyV c.serverRef && truthyV c.secretKey
   | none => false)

/-- JavaScript `session.lastUsed || session.createdAt` (either side may be
absent or the falsy `0`). -/
def jsOrNat (x y : Option Nat) : Option Nat :=
  match x with
  | some n => if n ≠ 0 then some n else y
  | none => y

/-- 30 days in milliseconds (AuthManager.js:371). -/
def sessionMaxAge : Nat := 30 * 24 * 60 * 60 * 1000

/-- `AuthManager.isSessionExpired` (AuthManager.js:365-374):
`Date.now() - (lastUsed || createdAt) > maxAge`, computed in signed
arithmetic; with both fields absent the subtraction is `NaN` and the
comparison is false. -/
def isSessionExpiredModel (s : SessionFile) (now : Nat) : Bool :=
  match jsOrNat s.lastUsed s.createdAt with
  | some lu => decide ((now : Int) - lu > (sessionMaxAge : Int))
  | none => false

/-- Result of one `loadSession` call: the returned session (or `null`),
whether `clearSession` removed the stored file, and the resulting
`isAuthenticated` flag. -/
structure LoadOut where
  result : Option SessionFile
  fileRemoved : Bool
  isAuthenticated : Bool
  deriving DecidableEq, Repr

/-- `AuthManager.loadSession` (AuthManager.js:111-151): no file → `null`;
invalid session data → remove file, `null`; expired (checked here, at load
time) → remove file, `null`; otherwise the parsed session is returned as
stored — `decryptSession` is never applied. -/
def loadSessionModel (file : Option SessionFile) (now : Nat) : LoadOut :=
  match file with
  | none => { result := none, fileRemoved := false, isAuthenticated := false }
  | some s =>
    if validateSessionModel s = false then
      { result := none, fileRemoved := true, isAuthenticated := false }
    else if isSessionExpiredModel s now then
      { result := none, fileRemoved := true, isAuthenticated := false }
    else
      { result := some s, fileRemoved := false, isAuthenticated := true }

/-! ## Claim C7 — 30-day expiry is enforced at load time -/

/-- **C7.** For every stored session whose `lastUsed` timestamp is a real
(nonzero) timestamp more than 30 days before `now`, `loadSession` detects the
expiry at load time, removes the stored session file, and returns `null` — so
`connect()` falls back to QR pairing instead of resuming. -/
theorem c7_expired_session_removed_at_load (s : SessionFile) (now lu : Nat)
    (hlu : s.lastUsed = some lu) (hlu0 : lu ≠ 0)
    (hexp : (now : Int) - lu > (sessionMaxAge : Int)) :
    loadSessionModel (some s) now =
      { result := none, fileRemoved := true, isAuthenticated := false } ∧
    connectChoice (loadSessionModel (some s) now).result = ConnectPath.viaQR := by
  have hkey : loadSessionModel (some s) now =
      { result := none, fileRemoved := true, isAuthenticated := false } := by
    by_cases hv : validateSessionModel s = false
    · simp [loadSessionModel, hv]
    · have hexp' : isSessionExpiredModel s now = true := by
        simp [isSessionExpiredModel, jsOrNat, hlu, hlu0]
        omega
      simp [loadSessionModel, hv, hexp']
  exact ⟨hkey, by rw [hkey]; rfl⟩

/-- Concrete stored session for the C7 witness: last used at epoch-millisecond
1, loaded 30 days + 2 ms later. -/
def c7File : SessionFile :=
  { sessionId := some "default"
    credentials := some { clientId := some (.str "c"), serverRef := some (.str "r"),
                          secretKey := some (.str "konstant-secret-key") }
    createdAt := some 1
    lastUsed := some 1 }

/-- **C7 — witness** for `c7_expired_session_removed_at_load` at `c7File`. -/
theorem c7_witness :
    c7File.lastUsed = some 1 ∧ (1 : Nat) ≠ 0 ∧
    ((2592000002 : Nat) : Int) - (1 : Nat) > (sessionMaxAge : Int) ∧
    (loadSessionModel (some c7File) 2592000002 =
      { result := none, fileRemoved := true, isAuthenticated := false } ∧
     connectChoice (loadSessionModel (some c7File) 2592000002).result =
       ConnectPath.viaQR) :=
  ⟨rfl, by norm_num, by norm_num [sessionMaxAge],
   c7_expired_session_removed_at_load c7File 2592000002 1 rfl (by norm_num)
     (by norm_num [sessionMaxAge])⟩

/-! ## Claim C9 — save/load is base64-encoding, not the identity -/

theorem truthyV_some (v : Val) : truthyV (some v) = v.truthy := rfl

theorem orTruthyNat_ne_zero (x : Option Nat) (y : Nat) (hy : y ≠ 0) :
    orTruthyNat x y ≠ 0 := by
  match x with
  | none => simpa [orTruthyNat] using hy
  | some n =>
    by_cases hn : n = 0 <;> simp [orTruthyNat, hn, hy]

/-- **C9.** `saveSession` base64-encodes the sensitive credential fields
(`secretKey`, `privateKey`, `sessionToken`, `clientToken`) via
`encryptSession`, and `loadSession` returns the stored file verbatim without
applying `decryptSession`: for every credentials object with truthy fields
round-tripped through save-then-load (within the expiry window), the load
succeeds and each loaded sensitive field is the base64 encoding of the
original value — which is never the original value, so save-then-load is not
an identity on credentials. -/
theorem c9_save_load_base64_not_identity (sessionId : String) (creds : SessCreds)
    (now later : Nat) (hsid : sessionId ≠ "") (hnow : now ≠ 0)
    (sk : Val) (hsk : creds.secretKey = some sk) (hskt : sk.truthy = true)
    (pk : Val) (hpk : creds.privateKey = some pk) (hpkt : pk.truthy = true)
    (st : Val) (hst : creds.sessionToken = some st) (hstt : st.truthy = true)
    (ct : Val) (hct : creds.clientToken = some ct) (hctt : ct.truthy = true)
    (hcid : truthyV creds.clientId = true) (href : truthyV creds.serverRef = true)
    (hfresh : (later : Int) - now ≤ (sessionMaxAge : Int)) :
    (loadSessionModel (some (saveSessionModel sessionId creds now)) later).result =
      some (saveSessionModel sessionId creds now) ∧
    (saveSessionModel sessionId creds now).credentials = some { creds with
      secretKey := some (Val.b64 sk), privateKey := some (Val.b64 pk),
      sessionToken := some (Val.b64 st), clientToken := some (Val.b64 ct) } ∧
    some (Val.b64 sk) ≠ creds.secretKey ∧ some (Val.b64 pk) ≠ creds.privateKey ∧
    some (Val.b64 st) ≠ creds.sessionToken ∧ some (Val.b64 ct) ≠ creds.clientToken := by
  have hsave : saveSessionModel sessionId creds now =
      { sessionId := some sessionId
        credentials := some { creds with
          secretKey := some (Val.b64 sk), privateKey := some (Val.b64 pk),
          sessionToken := some (Val.b64 st), clientToken := some (Val.b64 ct) }
        createdAt := some (orTruthyNat creds.createdAt now)
        lastUsed := some now
        encrypted := true } := by
    simp [saveSessionModel, encryptSessionModel, encFieldModel, hsk, hskt, hpk, hpkt,
      hst, hstt, hct, hctt]
  have hval : validateSessionModel (saveSessionModel sessionId creds now) = true := by
    rw [hsave]
    simp [validateSessionModel, truthyS, truthyN, hsid, hcid, href, truthyV_some,
      orTruthyNat_ne_zero creds.createdAt now hnow, hnow, Val.truthy, hskt]
  have hexp : isSessionExpiredModel (saveSessionModel sessionId creds now) later
      = false := by
    rw [hsave]
    simp [isSessionExpiredModel, jsOrNat, hnow]
    omega
  refine ⟨?_, ?_, ?_, ?_, ?_, ?_⟩
  · simp [loadSessionModel, hval, hexp]
  · rw [hsave]
  · rw [hsk]
    simp [Val.b64_ne]
  · rw [hpk]
    simp [Val.b64_ne]
  · rw [hst]
    simp [Val.b64_ne]
  · rw [hct]
    simp [Val.b64_ne]

/-- Concrete credentials for the C9 witness. -/
def c9Creds : SessCreds :=
  { clientId := some (.str "client-1"), serverRef := some (.str "sref")
    publicKey := some (.str "pub"), secretKey := some (.str "secret")
    privateKey := some (.str "priv"), sessionToken := some (.str "stok")
    clientToken := some (.str "ctok"), createdAt := some 1, lastUsed := some 1 }

/-- **C9 — witness** for `c9_save_load_base64_not_identity` at `c9Creds`,
saved at time 5 and loaded at time 10. -/
theorem c9_witness :
    ("default" : String) ≠ "" ∧ (5 : Nat) ≠ 0 ∧
    c9Creds.secretKey = some (.str "secret") ∧ (Val.str "secret").truthy = true ∧
    ((10 : Nat) : Int) - (5 : Nat) ≤ (sessionMaxAge : Int) ∧
    ((loadSessionModel (some (saveSessionModel "default" c9Creds 5)) 10).result =
      some (saveSessionModel "default" c9Creds 5) ∧
     (saveSessionModel "default" c9Creds 5).credentials = some { c9Creds with
       secretKey := some (Val.b64 (.str "secret")),
       privateKey := some (Val.b64 (.str "priv")),
       sessionToken := some (Val.b64 (.str "stok")),
       clientToken := some (Val.b64 (.str "ctok")) } ∧
     some (Val.b64 (.str "secret")) ≠ c9Creds.secretKey ∧
     some (Val.b64 (.str "priv")) ≠ c9Creds.privateKey ∧
     some (Val.b64 (.str "stok")) ≠ c9Creds.sessionToken ∧
     some (Val.b64 (.str "ctok")) ≠ c9Creds.clientToken) :=
  ⟨by decide, by norm_num, rfl, rfl, by norm_num [sessionMaxAge],
   c9_save_load_base64_not_identity "default" c9Creds 5 10 (by decide) (by norm_num)
     (.str "secret") rfl rfl (.str "priv") rfl rfl (.str "stok") rfl rfl
     (.str "ctok") rfl rfl rfl rfl (by norm_num [sessionMaxAge])⟩

/-! ## PollHandler (handlers/PollHandler.js) -/

/-- One poll option (PollHandler.js:442-446).  The vote counter is a signed
JavaScript number (it is incremented and decremented). -/
structure PollOption where
  id : Nat
  text : String
  votes : Int
  deriving DecidableEq, Repr

/-- One poll (the `pollData` of PollHandler.js:438-454): its options, the
`votes` Map sending each voter id to that voter's recorded option ids (an
insertion-ordered association list, like a JavaScript `Map`), and the
`multipleChoice` setting. -/
structure Poll where
  options : List PollOption
  ballots : List (String × List Nat)
  multipleChoice : Bool
  deriving DecidableEq, Repr

/-- `PollHandler.createPoll` (PollHandler.js:422-482) modulo transport: the
2..12-option validation and the construction of `pollData` (ids are the
option indices, counters start at 0, no ballots). -/
def createPollModel (optionTexts : List String) (multipleChoice : Bool) :
    Except String Poll :=
  if optionTexts.length < 2 then .error "Poll must have at least 2 options"
  else if optionTexts.length > 12 then .error "Poll can have maximum 12 options"
  else .ok
    { options := optionTexts.enum.map fun it => { id := it.1, text := it.2, votes := 0 }
      ballots := []
      multipleChoice := multipleChoice }

/-- `poll.options.find(opt => opt.id === optionId)` followed by
`option.votes--` when found (PollHandler.js:516-519): decrement the first
option with the given id. -/
def decVote : List PollOption → Nat → List PollOption
  | [], _ => []
  | o :: rest, oid =>
    if o.id = oid then { o with votes := o.votes - 1 } :: rest
    else o :: decVote rest oid

/-- The same with `option.votes++` (PollHandler.js:523-526). -/
def incVote : List PollOption → Nat → List PollOption
  | [], _ => []
  | o :: rest, oid =>
    if o.id = oid then { o with votes := o.votes + 1 } :: rest
    else o :: incVote rest oid

/-- `poll.votes.get(voterId)` on the insertion-ordered map. -/
def lookupBallot : List (String × List Nat) → String → Option (List Nat)
  | [], _ => none
  | (w, b) :: rest, v => if w = v then some b else lookupBallot rest v

/-- `poll.votes.set(voterId, ids)`: replace an existing entry in place, or
append a new one. -/
def setBallot : List (String × List Nat) → String → List Nat → List (String × List Nat)
  | [], v, ids => [(v, ids)]
  | (w, b) :: rest, v, ids =>
    if w = v then (v, ids) :: rest else (w, b) :: setBallot rest v ids

/-- The `validOptionIds` filter of `votePoll` (PollHandler.js:505-507). -/
def validIds (p : Poll) (optionIds : List Nat) : List Nat :=
  optionIds.filter fun oid => p.options.any fun o => o.id = oid

/-- `PollHandler.votePoll` (PollHandler.js:487-552) modulo transport: reject
multi-selection on single-choice polls and empty valid-id sets (both before
any mutation); otherwise first subtract the voter's previous recorded ids,
then add the new ones, and record the new ballot. -/
def votePollModel (p : Poll) (optionIds : List Nat) (voterId : String) :
    Except String Poll :=
  if optionIds.length > 1 ∧ p.multipleChoice = false then
    .error "Multiple choice not allowed for this poll"
  else if (validIds p optionIds).isEmpty then .error "No valid option IDs provided"
  else .ok { p with
    options := (validIds p optionIds).foldl incVote
      (match lookupBallot p.ballots voterId with
       | some prev => prev.foldl decVote p.options
       | none => p.options)
    ballots := setBallot p.ballots voterId (validIds p optionIds) }

/-- `PollHandler.getPollResults` (PollHandler.js:557-579): the number of voter
entries (`totalVotes`) and each option's id, text and counter (the derived
percentage field is floating-point display logic, out of scope). -/
def getPollResultsModel (p : Poll) : Nat × List (Nat × String × Int) :=
  (p.ballots.length, p.options.map fun o => (o.id, o.text, o.votes))

/-- A sequence of `votePoll` calls (option-id list and voter id); a call that
throws leaves the poll unchanged (both rejections precede any mutation). -/
def runVotes (p : Poll) (calls : List (List Nat × String)) : Poll :=
  calls.foldl
    (fun q c =>
      match votePollModel q c.1 c.2 with
      | .ok q2 => q2
      | .error _ => q) p

/-- Total multiplicity of option `oid` across all recorded ballots. -/
def ballotCount (oid : Nat) (ballots : List (String × List Nat)) : Nat :=
  (ballots.map fun b => b.2.count oid).sum

/-- The PollHandler data invariant: option ids are distinct, each voter has at
most one recorded ballot, and every option's counter equals the total
multiplicity of its id across the recorded ballots. -/
def PollInv (p : Poll) : Prop :=
  (p.options.map PollOption.id).Nodup ∧
  (p.ballots.map Prod.fst).Nodup ∧
  ∀ o ∈ p.options, o.votes = (ballotCount o.id p.ballots : Int)

theorem decVote_map_id (opts : List PollOption) (oid : Nat) :
    (decVote opts oid).map PollOption.id = opts.map PollOption.id := by
  induction opts with
  | nil => rfl
  | cons o rest ih =>
    by_cases h : o.id = oid <;> simp [decVote, h, ih]

theorem incVote_map_id (opts : List PollOption) (oid : Nat) :
    (incVote opts oid).map PollOption.id = opts.map PollOption.id := by
  induction opts with
  | nil => rfl
  | cons o rest ih =>
    by_cases h : o.id = oid <;> simp [incVote, h, ih]

theorem foldl_decVote_map_id (ids : List Nat) (opts : List PollOption) :
    (List.foldl decVote opts ids).map PollOption.id = opts.map PollOption.id := by
  induction ids generalizing opts with
  | nil => rfl
  | cons a ids ih => rw [List.foldl_cons, ih, decVote_map_id]

theorem foldl_incVote_map_id (ids : List Nat) (opts : List PollOption) :
    (List.foldl incVote opts ids).map PollOption.id = opts.map PollOption.id := by
  induction ids generalizing opts with
  | nil => rfl
  | cons a ids ih => rw [List.foldl_cons, ih, incVote_map_id]

theorem map_update_noop (f : PollOption → PollOption) (l : List PollOption) (oid : Nat)
    (h : ∀ o ∈ l, o.id ≠ oid) :
    l.map (fun o => if o.id = oid then f o else o) = l := by
  induction l with
  | nil => rfl
  | cons o rest ih =>
    have h1 : o.id ≠ oid := h o (List.mem_cons_self o rest)
    simp only [List.map_cons, if_neg h1]
    rw [ih fun x hx => h x (List.mem_cons_of_mem o hx)]

theorem decVote_eq_map (opts : List PollOption) (h : (opts.map PollOption.id).Nodup)
    (oid : Nat) :
    decVote opts oid =
      opts.map fun o => if o.id = oid then { o with votes := o.votes - 1 } else o := by
  induction opts with
  | nil => rfl
  | cons o rest ih =>
    rw [List.map_cons, List.nodup_cons] at h
    by_cases hid : o.id = oid
    · have hno : ∀ r ∈ rest, r.id ≠ oid := by
        intro r hr he
        apply h.1
        have hm : r.id ∈ rest.map PollOption.id := List.mem_map_of_mem PollOption.id hr
        rw [he, ← hid] at hm
        exact hm
      simp only [decVote, if_pos hid, List.map_cons]
      rw [map_update_noop _ rest oid hno]
    · simp only [decVote, if_neg hid, List.map_cons]
      rw [ih h.2]

theorem incVote_eq_map (opts : List PollOption) (h : (opts.map PollOption.id).Nodup)
    (oid : Nat) :
    incVote opts oid =
      opts.map fun o => if o.id = oid then { o with votes := o.votes + 1 } else o := by
  induction opts with
  | nil => rfl
  | cons o rest ih =>
    rw [List.map_cons, List.nodup_cons] at h
    by_cases hid : o.id = oid
    · have hno : ∀ r ∈ rest, r.id ≠ oid := by
        intro r hr he
        apply h.1
        have hm : r.id ∈ rest.map PollOption.id := List.mem_map_of_mem PollOption.id hr
        rw [he, ← hid] at hm
        exact hm
      simp only [incVote, if_pos hid, List.map_cons]
      rw [map_update_noop _ rest oid hno]
    · simp only [incVote, if_neg hid, List.map_cons]
      rw [ih h.2]

theorem foldl_decVote_eq_map (ids : List Nat) (opts : List PollOption)
    (h : (opts.map PollOption.id).Nodup) :
    List.foldl decVote opts ids =
      opts.map fun o => { o with votes := o.votes - (ids.count o.id : Int) } := by
  induction ids generalizing opts with
  | nil =>
    simp
  | cons a ids ih =>
    rw [List.foldl_cons, decVote_eq_map opts h a]
    have hcomp : (PollOption.id ∘ fun o =>
        if o.id = a then { o with votes := o.votes - 1 } else o) = PollOption.id := by
      funext o
      by_cases hid : o.id = a <;> simp [hid]
    have h2 : (((opts.map fun o =>
        if o.id = a then { o with votes := o.votes - 1 } else o).map PollOption.id)).Nodup := by
      rw [List.map_map, hcomp]
      exact h
    rw [ih _ h2, List.map_map]
    apply List.map_congr_left
    intro o ho
    by_cases hid : o.id = a
    · simp only [Function.comp, if_pos hid, hid, List.count_cons_self]
      congr 1
      push_cast
      ring
    · have hne : o.id ≠ a := hid
      simp only [Function.comp, if_neg hid]
      rw [List.count_cons_of_ne hne]

theorem foldl_incVote_eq_map (ids : List Nat) (opts : List PollOption)
    (h : (opts.map PollOption.id).Nodup) :
    List.foldl incVote opts ids =
      opts.map fun o => { o with votes := o.votes + (ids.count o.id : Int) } := by
  induction ids generalizing opts with
  | nil =>
    simp
  | cons a ids ih =>
    rw [List.foldl_cons, incVote_eq_map opts h a]
    have hcomp : (PollOption.id ∘ fun o =>
        if o.id = a then { o with votes := o.votes + 1 } else o) = PollOption.id := by
      funext o
      by_cases hid : o.id = a <;> simp [hid]
    have h2 : (((opts.map fun o =>
        if o.id = a then { o with votes := o.votes + 1 } else o).map PollOption.id)).Nodup := by
      rw [List.map_map, hcomp]
      exact h
    rw [ih _ h2, List.map_map]
    apply List.map_congr_left
    intro o ho
    by_cases hid : o.id = a
    · simp only [Function.comp, if_pos hid, hid, List.count_cons_self]
      congr 1
      push_cast
      ring
    · have hne : o.id ≠ a := hid
      simp only [Function.comp, if_neg hid]
      rw [List.count_cons_of_ne hne]

theorem ballotCount_cons (oid : Nat) (w : String) (b : List Nat)
    (rest : List (String × List Nat)) :
    ballotCount oid ((w, b) :: rest) = b.count oid + ballotCount oid rest := by
  simp [ballotCount]

/-- The multiplicity contributed by voter `v`'s currently recorded ballot. -/
def prevCount (bs : List (String × List Nat)) (v : String) (oid : Nat) : Nat :=
  match lookupBallot bs v with
  | some prev => prev.count oid
  | none => 0

theorem ballotCount_setBallot (bs : List (String × List Nat)) (v : String)
    (new : List Nat) (oid : Nat) :
    (ballotCount oid (setBallot bs v new) : Int) =
      (ballotCount oid bs : Int) - prevCount bs v oid + new.count oid := by
  induction bs with
  | nil =>
    simp [setBallot, ballotCount, prevCount, lookupBallot]
  | cons e rest ih =>
    obtain ⟨w, b⟩ := e
    by_cases hw : w = v
    · simp only [setBallot, if_pos hw, ballotCount_cons, prevCount, lookupBallot]
      push_cast
      omega
    · simp only [setBallot, if_neg hw, ballotCount_cons, prevCount, lookupBallot] at ih ⊢
      push_cast at ih ⊢
      omega

theorem mem_setBallot_keys (bs : List (String × List Nat)) (v x : String)
    (new : List Nat) (hx : x ∈ (setBallot bs v new).map Prod.fst) :
    x ∈ bs.map Prod.fst ∨ x = v := by
  induction bs with
  | nil =>
    simp [setBallot] at hx
    exact Or.inr hx
  | cons e rest ih =>
    obtain ⟨w, b⟩ := e
    by_cases hw : w = v
    · simp only [setBallot, if_pos hw, List.map_cons, List.mem_cons] at hx
      rcases hx with hx | hx
      · exact Or.inr hx
      · exact Or.inl (by simp [hx])
    · simp only [setBallot, if_neg hw, List.map_cons, List.mem_cons] at hx
      rcases hx with hx | hx
      · exact Or.inl (by simp [hx])
      · rcases ih hx with h | h
        · exact Or.inl (by simp [h])
        · exact Or.inr h

theorem setBallot_keys_nodup (bs : List (String × List Nat)) (v : String)
    (new : List Nat) (h : (bs.map Prod.fst).Nodup) :
    ((setBallot bs v new).map Prod.fst).Nodup := by
  induction bs with
  | nil => simp [setBallot]
  | cons e rest ih =>
    obtain ⟨w, b⟩ := e
    rw [List.map_cons, List.nodup_cons] at h
    by_cases hw : w = v
    · rw [show setBallot ((w, b) :: rest) v new = (v, new) :: rest by
        simp [setBallot, hw]]
      rw [List.map_cons, List.nodup_cons]
      exact ⟨by rw [← hw]; exact h.1, h.2⟩
    · rw [show setBallot ((w, b) :: rest) v new = (w, b) :: setBallot rest v new by
        simp [setBallot, hw]]
      rw [List.map_cons, List.nodup_cons]
      refine ⟨?_, ih h.2⟩
      intro hmem
      rcases mem_setBallot_keys rest v w new hmem with hm | hm
      · exact h.1 hm
      · exact hw hm

theorem votePoll_inv (p : Poll) (hinv : PollInv p) (ids : List Nat) (v : String)
    (q : Poll) (h : votePollModel p ids v = .ok q) : PollInv q := by
  obtain ⟨hids, hkeys, hvotes⟩ := hinv
  by_cases h1 : ids.length > 1 ∧ p.multipleChoice = false
  · simp [votePollModel, h1] at h
  · by_cases h2 : (validIds p ids).isEmpty = true
    · simp [votePollModel, h1, h2] at h
    · simp only [votePollModel, if_neg h1, if_neg h2, Except.ok.injEq] at h
      subst h
      refine ⟨?_, ?_, ?_⟩
      · rw [foldl_incVote_map_id]
        rcases hlook : lookupBallot p.ballots v with _ | prev
        · simpa [hlook] using hids
        · simpa [hlook, foldl_decVote_map_id] using hids
      · exact setBallot_keys_nodup p.ballots v (validIds p ids) hkeys
      · intro o ho
        rcases hlook : lookupBallot p.ballots v with _ | prev
        · rw [hlook] at ho
          rw [foldl_incVote_eq_map (validIds p ids) p.options hids] at ho
          obtain ⟨o0, ho0, rfl⟩ := List.mem_map.1 ho
          have hv0 := hvotes o0 ho0
          have hbc := ballotCount_setBallot p.ballots v (validIds p ids) o0.id
          have hpc : prevCount p.ballots v o0.id = 0 := by
            simp [prevCount, hlook]
          rw [hpc] at hbc
          show o0.votes + (((validIds p ids).count o0.id : Nat) : Int) =
            ((ballotCount o0.id (setBallot p.ballots v (validIds p ids)) : Nat) : Int)
          rw [hv0]
          omega
        · rw [hlook] at ho
          have hmid : (List.foldl decVote p.options prev).map PollOption.id
              = p.options.map PollOption.id := foldl_decVote_map_id prev p.options
          have hmidnodup : ((List.foldl decVote p.options prev).map PollOption.id).Nodup := by
            rw [hmid]
            exact hids
          rw [foldl_incVote_eq_map (validIds p ids) _ hmidnodup,
            foldl_decVote_eq_map prev p.options hids, List.map_map] at ho
          obtain ⟨o0, ho0, rfl⟩ := List.mem_map.1 ho
          have hv0 := hvotes o0 ho0
          have hbc := ballotCount_setBallot p.ballots v (validIds p ids) o0.id
          have hpc : prevCount p.ballots v o0.id = prev.count o0.id := by
            simp [prevCount, hlook]
          rw [hpc] at hbc
          show o0.votes - ((prev.count o0.id : Nat) : Int) +
              (((validIds p ids).count o0.id : Nat) : Int) =
            ((ballotCount o0.id (setBallot p.ballots v (validIds p ids)) : Nat) : Int)
          rw [hv0]
          omega

theorem createPoll_inv (texts : List String) (mc : Bool) (p : Poll)
    (h : createPollModel texts mc = .ok p) : PollInv p := by
  by_cases h1 : texts.length < 2
  · simp [createPollModel, h1] at h
  · by_cases h2 : texts.length > 12
    · simp [createPollModel, h1, h2] at h
    · simp only [createPollModel, if_neg h1, if_neg h2, Except.ok.injEq] at h
      subst h
      refine ⟨?_, by simp, ?_⟩
      · rw [List.map_map]
        have hcomp : (PollOption.id ∘ fun it : Nat × String =>
            ({ id := it.1, text := it.2, votes := 0 } : PollOption)) = Prod.fst := by
          funext it
          rfl
        rw [hcomp, List.enum_map_fst]
        exact List.nodup_range texts.length
      · intro o ho
        obtain ⟨it, hit, rfl⟩ := List.mem_map.1 ho
        simp [ballotCount]

theorem runVotes_inv (p : Poll) (h : PollInv p) (calls : List (List Nat × String)) :
    PollInv (runVotes p calls) := by
  induction calls generalizing p with
  | nil => exact h
  | cons c calls ih =>
    have hstep : runVotes p (c :: calls) =
        runVotes (match votePollModel p c.1 c.2 with
          | .ok q2 => q2
          | .error _ => p) calls := rfl
    rw [hstep]
    rcases hv : votePollModel p c.1 c.2 with e | q2
    · simp only [hv]
      exact ih p h
    · simp only [hv]
      exact ih q2 (votePoll_inv p h c.1 c.2 q2 hv)

/-! ## Claim C10 — poll ballots and vote counts -/

/-- A fresh two-option multiple-choice poll, as built by `createPoll`. -/
def c10Poll : Poll :=
  { options := [{ id := 0, text := "A", votes := 0 }, { id := 1, text := "B", votes := 0 }]
    ballots := []
    multipleChoice := true }

/-- **C10 — counterexample.** The claim says each option's count equals the
number of voters whose current ballot includes that option.  False: one
`votePoll` call listing the same option id twice (legal on a multiple-choice
poll) increments that option twice, so its count is 2 while only one voter's
ballot includes it. -/
theorem c10_counterexample :
    createPollModel ["A", "B"] true = .ok c10Poll ∧
    votePollModel c10Poll [0, 0] "alice" = .ok
      { options := [{ id := 0, text := "A", votes := 2 }, { id := 1, text := "B", votes := 0 }]
        ballots := [("alice", [0, 0])]
        multipleChoice := true } ∧
    (((runVotes c10Poll [([0, 0], "alice")]).ballots.filter
        (fun b => 0 ∈ b.2)).length = 1) ∧
    (∀ o ∈ (runVotes c10Poll [([0, 0], "alice")]).options, o.id = 0 → o.votes = 2) ∧
    (2 : Int) ≠ 1 := by
  refine ⟨rfl, rfl, by decide, ?_, by decide⟩
  decide

/-- **C10 — amended.** In every poll reachable from `createPoll` by a sequence
of `votePoll` calls, each voter has at most one recorded ballot (a repeated
vote first subtracts the previous selections), each option's vote count equals
the total multiplicity of that option across the current ballots (which is the
number of voters whose ballot includes it whenever each call's option list is
duplicate-free — but a duplicated id in one call counts with multiplicity, see
the counterexample), and no option's count is ever negative. -/
theorem c10_vote_count_invariant (texts : List String) (mc : Bool) (p : Poll)
    (h : createPollModel texts mc = .ok p) (calls : List (List Nat × String)) :
    ((runVotes p calls).ballots.map Prod.fst).Nodup ∧
    ∀ o ∈ (runVotes p calls).options,
      o.votes = (ballotCount o.id (runVotes p calls).ballots : Int) ∧ 0 ≤ o.votes := by
  have hinv : PollInv (runVotes p calls) :=
    runVotes_inv p (createPoll_inv texts mc p h) calls
  refine ⟨hinv.2.1, fun o ho => ?_⟩
  have hv := hinv.2.2 o ho
  exact ⟨hv, by rw [hv]; exact Int.natCast_nonneg _⟩

/-- **C10 — witness** for `c10_vote_count_invariant`: a two-option poll with a
re-voting voter and a second voter. -/
theorem c10_witness :
    createPollModel ["A", "B"] true = .ok c10Poll ∧
    (((runVotes c10Poll [([0], "alice"), ([1], "alice"), ([0], "bob")]).ballots.map
        Prod.fst).Nodup ∧
     ∀ o ∈ (runVotes c10Poll [([0], "alice"), ([1], "alice"), ([0], "bob")]).options,
       o.votes = (ballotCount o.id
         (runVotes c10Poll [([0], "alice"), ([1], "alice"), ([0], "bob")]).ballots : Int) ∧
       0 ≤ o.votes) :=
  ⟨rfl,
   c10_vote_count_invariant ["A", "B"] true c10Poll rfl
     [([0], "alice"), ([1], "alice"), ([0], "bob")]⟩

end ChatPulse
